import Mathlib

/-!
Shallow embedding of the webhook ingestion worker
(src/webhook-worker/src/lib.rs, the `#[event(fetch)] async fn main`).

The worker is a single request handler. External collaborators — the KV
identifier cache, the D1 webhook registry, the D1 event store, the clock and
the UUID generator — are modelled as an explicit environment `Env` whose
fields record the outcome each external call would produce for this request.
Rust `HashMap` iteration order is unspecified, so the order in which the
header map and the query-parameter map are serialized is part of the
environment (`headerEntries`, `queryEntries`); theorems constrain these to be
permutations of the deduplicated (last-insert-wins) entries of the inbound
collections, which is exactly what a `HashMap` built by successive inserts
can yield.

`fetchMain` returns the produced response (or `err` for a `?`-propagated
`worker::Error`, which the runtime surfaces as a 500-equivalent without CORS
headers) together with the ordered trace of external calls (cache get,
registry query, cache put, store insert).
-/

namespace WebhookWorker

/-- One hex digit, lower case, as produced by serde_json `\uXXXX` escapes. -/
def hexDigit (n : Nat) : Char :=
  if n < 10 then Char.ofNat (48 + n) else Char.ofNat (87 + n)

/-- Four hex digits of a code point below 0x10000. -/
def hex4 (n : Nat) : String :=
  String.mk [hexDigit (n / 4096 % 16), hexDigit (n / 256 % 16),
             hexDigit (n / 16 % 16), hexDigit (n % 16)]

/-- JSON escaping of one character, as serde_json escapes string contents. -/
def jsonEscapeChar (c : Char) : String :=
  if c = '"' then ("\\\"")
  else if c = '\\' then ("\\\\")
  else if c = '\x08' then ("\\b")
  else if c = '\t' then ("\\t")
  else if c = '\n' then ("\\n")
  else if c = '\x0c' then ("\\f")
  else if c = '\r' then ("\\r")
  else if c.toNat < 32 then ("\\u") ++ hex4 c.toNat
  else String.singleton c

/-- A JSON string literal for `s`, as serde_json serializes a `String`. -/
def jsonString (s : String) : String :=
  ("\"") ++ String.join (s.data.map jsonEscapeChar) ++ ("\"")

/-- The JSON object text for the given entries in the given order, as
serde_json serializes a string-to-string map iterated in that order. -/
def jsonObj (entries : List (String × String)) : String :=
  ("\x7b") ++
    String.intercalate (",")
      (entries.map (fun kv => jsonString kv.1 ++ (":") ++ jsonString kv.2)) ++
  ("\x7d")

/-- The distinct keys of an association list (each key kept once). -/
def dedupKeys : List String → List String
  | [] => []
  | k :: rest => if rest.contains k then dedupKeys rest else k :: dedupKeys rest

/-- The value a `HashMap` built by inserting the pairs left to right holds for
`k`: the last inserted value, since a later `insert` overwrites. -/
def mapLookup (l : List (String × String)) (k : String) : Option String :=
  ((l.filter (fun kv => kv.1 == k)).map (fun kv => kv.2)).getLast?

/-- One canonical listing of the entries of the `HashMap` built by inserting
the pairs left to right. The map's real iteration order is some permutation
of this list. -/
def mapEntries (l : List (String × String)) : List (String × String) :=
  (dedupKeys (l.map (fun kv => kv.1))).filterMap
    (fun k => (mapLookup l k).map (fun v => (k, v)))

/-- The parsed inbound request as the worker sees it: method string (upper
case, from `req.method().to_string()`), URL path, query pairs in URL order,
header pairs in collection order, and the body text (`none` when
`req.text()` fails). -/
structure Request where
  method : String
  path : String
  queryPairs : List (String × String)
  headersList : List (String × String)
  bodyText : Option String
deriving DecidableEq, Repr

/-- Outcome of `kv.get(key).text().await`: a transport error (propagated by
`?`), a cached value, or a miss. -/
inductive CacheGet
  | err
  | hit (id : String)
  | miss
deriving DecidableEq, Repr

/-- Outcome of the D1 `SELECT id FROM webhooks WHERE uuid = ?1` point
lookup: an error (propagated by `?`), a row, or no row. -/
inductive RegistryRes
  | err
  | found (id : String)
  | notFound
deriving DecidableEq, Repr

/-- The environment of one invocation: what each external call would return,
the iteration orders the two hash maps happen to produce, the clock in
milliseconds, and the freshly generated UUID string. -/
structure Env where
  cacheGet : CacheGet
  registry : RegistryRes
  cachePutOk : Bool
  storeInsertOk : Bool
  headerEntries : List (String × String)
  queryEntries : List (String × String)
  nowMillis : Nat
  freshId : String
deriving DecidableEq, Repr

/-- The seven-column row of the `INSERT INTO webhook_data` statement. -/
structure Row where
  id : String
  webhook_id : String
  method : String
  headers : String
  data : String
  size_bytes : Nat
  received_at : Nat
deriving DecidableEq, Repr

/-- One external call issued by the handler, in issue order. -/
inductive Effect
  | cacheGet (key : String)
  | registryQuery (token : String)
  | cachePut (key : String) (value : String) (ttlSeconds : Nat)
  | storeInsert (row : Row)
deriving DecidableEq, Repr

/-- The JSON body of the success response. `webhook_id` carries the public
token from the URL, not the internal identifier. -/
structure SuccessBody where
  success : Bool
  message : String
  webhook_id : String
  data_id : String
  method : String
  received_at : Nat
  size_bytes : Nat
deriving DecidableEq, Repr

/-- Body of a produced response. -/
inductive RespBody
  | empty
  | text (s : String)
  | json (b : SuccessBody)
deriving DecidableEq, Repr

/-- A produced response: status, body, and whether the three permissive
cross-origin headers (`Access-Control-Allow-Origin: *`,
`Access-Control-Allow-Methods: GET, POST, OPTIONS`,
`Access-Control-Allow-Headers: *`) were set on it. -/
structure Resp where
  status : Nat
  body : RespBody
  cors : Bool
deriving DecidableEq, Repr

/-- Result of the handler: a response, or a `worker::Error` propagated by
`?` (the runtime turns it into a 500-equivalent plain response). -/
inductive FetchResult
  | ok (r : Resp)
  | err
deriving DecidableEq, Repr

/-- The OPTIONS preflight response: empty body, 200, CORS headers set. -/
def optionsResp : Resp := ⟨200, RespBody.empty, true⟩

/-- `Response::error(msg, status)`: plain text body, no CORS headers. -/
def errorResp (msg : String) (status : Nat) : Resp :=
  ⟨status, RespBody.text msg, false⟩

/-- `path.strip_prefix("/w/")` guarded by `path.starts_with("/w/")`: the
suffix after the three-character route prefix, or `none` when the path does
not start with it. -/
def stripW (path : String) : Option String :=
  match path.data with
  | '/' :: 'w' :: '/' :: rest => some (String.mk rest)
  | _ => none

/-- The `data_json` the handler persists: the raw body for the body-bearing
verbs POST, PUT and PATCH, defaulting to the two-character empty-object text
when `req.text()` fails; otherwise the serialized query-parameter map in the
iteration order the hash map produced. -/
def dataJsonOf (method : String) (bodyText : Option String)
    (queryEntries : List (String × String)) : String :=
  if method = ("POST") ∨ method = ("PUT") ∨ method = ("PATCH") then
    match bodyText with
    | some body => body
    | none => ("\x7b\x7d")
  else
    jsonObj queryEntries

/-- The handler `main` of the worker, as result plus external-call trace. -/
def fetchMain (req : Request) (env : Env) : FetchResult × List Effect :=
  if req.method = ("OPTIONS") then
    (FetchResult.ok optionsResp, [])
  else
    match stripW req.path with
    | none => (FetchResult.ok (errorResp ("Not Found") 404), [])
    | some uuid =>
      if uuid = ("") then
        (FetchResult.ok (errorResp ("Invalid webhook URL") 400), [])
      else
        let method := req.method
        let headersJson := jsonObj env.headerEntries
        let dataJson := dataJsonOf method req.bodyText env.queryEntries
        let sizeBytes := dataJson.utf8ByteSize
        let receivedAt := env.nowMillis / 1000
        let dataId := env.freshId
        let cacheKey := ("webhook:uuid:") ++ uuid
        let finish := fun (webhookId : String) (prior : List Effect) =>
          let row : Row :=
            ⟨dataId, webhookId, method, headersJson, dataJson, sizeBytes, receivedAt⟩
          let effs := prior ++ [Effect.storeInsert row]
          if env.storeInsertOk then
            (FetchResult.ok
              ⟨200,
               RespBody.json
                 ⟨true, ("Webhook received"), uuid, dataId, method, receivedAt, sizeBytes⟩,
               true⟩,
             effs)
          else
            (FetchResult.err, effs)
        match env.cacheGet with
        | CacheGet.err => (FetchResult.err, [Effect.cacheGet cacheKey])
        | CacheGet.hit cachedId => finish cachedId [Effect.cacheGet cacheKey]
        | CacheGet.miss =>
          match env.registry with
          | RegistryRes.err =>
            (FetchResult.err, [Effect.cacheGet cacheKey, Effect.registryQuery uuid])
          | RegistryRes.notFound =>
            (FetchResult.ok (errorResp ("Webhook not found") 404),
             [Effect.cacheGet cacheKey, Effect.registryQuery uuid])
          | RegistryRes.found rowId =>
            finish rowId
              [Effect.cacheGet cacheKey, Effect.registryQuery uuid,
               Effect.cachePut cacheKey rowId 3600]

/-- The rows whose insertion into the event store the trace attempts. -/
def insertedRows (trace : List Effect) : List Row :=
  trace.filterMap (fun e =>
    match e with
    | Effect.storeInsert r => some r
    | _ => none)

/-- The environment with the cache-put outcome replaced: used to state that
the handler's observable behaviour never depends on that outcome (the source
only logs it). -/
def setCachePut (env : Env) (b : Bool) : Env :=
  ⟨env.cacheGet, env.registry, b, env.storeInsertOk, env.headerEntries,
   env.queryEntries, env.nowMillis, env.freshId⟩

/-- The HTTP status the caller observes: `none` for a propagated error. -/
def resultStatus : FetchResult → Option Nat
  | FetchResult.ok r => some r.status
  | FetchResult.err => none

/-- A list permuting a two-element list is one of its two arrangements. -/
theorem pairPermCases {α : Type} {x y : α} {l : List α} (h : l.Perm [x, y]) :
    l = [x, y] ∨ l = [y, x] := by
  have hlen := h.length_eq
  match l with
  | [] => simp at hlen
  | [p] => simp at hlen
  | p :: q :: r :: rest => simp [List.length] at hlen
  | [p, q] =>
    have hp : p ∈ [x, y] := h.subset (by simp)
    rcases List.mem_pair.mp hp with rfl | rfl
    · left
      have h1 := (List.perm_cons p).mp h
      have h2 := List.perm_singleton.mp h1
      rw [h2]
    · right
      have h0 : List.Perm [p, q] [p, x] := h.trans (List.Perm.swap x p []).symm
      have h1 := (List.perm_cons p).mp h0
      have h2 := List.perm_singleton.mp h1
      rw [h2]

/-- C1 counterexample: with the cache `get` erroring and the registry holding
the webhook, the request fails (the error is propagated) and no Registry
lookup ever happens — resolution does not fall through. -/
theorem C1_cacheGetError_counterexample :
    (fetchMain ⟨("GET"), ("/w/tok"), [], [], none⟩
        ⟨CacheGet.err, RegistryRes.found ("id7"), true, true, [], [], 5000, ("e1")⟩).1
      = FetchResult.err ∧
    Effect.registryQuery ("tok") ∉
      (fetchMain ⟨("GET"), ("/w/tok"), [], [], none⟩
        ⟨CacheGet.err, RegistryRes.found ("id7"), true, true, [], [], 5000, ("e1")⟩).2 := by
  decide

/-- C1 (amended): an error from the Identifier Cache `get` is propagated by
`?` and fails the whole request; the trace stops at the cache read, so no
Registry fallthrough occurs. -/
theorem C1_cacheGetError_fails_request (req : Request) (env : Env) (tok : String)
    (hm : req.method ≠ ("OPTIONS")) (hp : stripW req.path = some tok)
    (ht : tok ≠ ("")) (hc : env.cacheGet = CacheGet.err) :
    fetchMain req env
      = (FetchResult.err, [Effect.cacheGet (("webhook:uuid:") ++ tok)]) := by
  simp only [fetchMain, if_neg hm, hp, if_neg ht, hc]

/-- C1 witness: the amended theorem evaluated on a concrete request. -/
theorem C1_cacheGetError_fails_request_witness :
    fetchMain ⟨("GET"), ("/w/tok"), [], [], none⟩
        ⟨CacheGet.err, RegistryRes.found ("id7"), true, true, [], [], 5000, ("e1")⟩
      = (FetchResult.err, [Effect.cacheGet (("webhook:uuid:") ++ ("tok"))]) :=
  C1_cacheGetError_fails_request _ _ ("tok") (by decide) (by decide) (by decide) rfl

/-- C2 counterexample: the 400-equivalent response for an empty token is
built by `Response::error` and carries no cross-origin headers, so not every
response carries the permissive headers of the OPTIONS case. -/
theorem C2_cors_counterexample :
    (fetchMain ⟨("POST"), ("/w/"), [], [], some ("x")⟩
        ⟨CacheGet.miss, RegistryRes.notFound, true, true, [], [], 0, ("e1")⟩).1
      = FetchResult.ok ⟨400, RespBody.text ("Invalid webhook URL"), false⟩ := by
  decide

/-- C2 (amended): only the OPTIONS preflight response and the 200 success
response carry the permissive cross-origin headers; every 400- or
404-equivalent error response is produced without them (and a `?`-propagated
failure yields no handler-set headers at all). -/
theorem C2_cors_only_with_status200 (req : Request) (env : Env) (r : Resp)
    (h : (fetchMain req env).1 = FetchResult.ok r) :
    r.cors = true ↔ r.status = 200 := by
  unfold fetchMain at h
  split at h
  · cases h; decide
  · split at h
    · cases h; decide
    · split at h
      · cases h; decide
      · dsimp only at h
        split at h
        · exact FetchResult.noConfusion h
        · split at h
          · cases h; simp
          · exact FetchResult.noConfusion h
        · split at h
          · exact FetchResult.noConfusion h
          · cases h; decide
          · split at h
            · cases h; simp
            · exact FetchResult.noConfusion h

/-- C2 witness: the amended theorem evaluated on a concrete success run. -/
theorem C2_cors_only_with_status200_witness :
    Resp.cors ⟨200,
        RespBody.json ⟨true, ("Webhook received"), ("t"), ("e1"), ("POST"), 0, 1⟩,
        true⟩ = true
      ↔ Resp.status ⟨200,
          RespBody.json ⟨true, ("Webhook received"), ("t"), ("e1"), ("POST"), 0, 1⟩,
          true⟩ = 200 :=
  C2_cors_only_with_status200 ⟨("POST"), ("/w/t"), [], [], some ("x")⟩
    ⟨CacheGet.hit ("i1"), RegistryRes.notFound, true, true, [], [], 0, ("e1")⟩
    ⟨200, RespBody.json ⟨true, ("Webhook received"), ("t"), ("e1"), ("POST"), 0, 1⟩, true⟩
    (by decide)

/-- C3 counterexample: the key used against the cache is the textual prefix
`webhook:uuid:` followed by the token, for the `get` and for the
repopulating `put` alike; the prefix `webhook:token:` is never used. -/
theorem C3_cacheKey_counterexample :
    Effect.cacheGet (("webhook:token:") ++ ("tok")) ∉
      (fetchMain ⟨("GET"), ("/w/tok"), [], [], none⟩
        ⟨CacheGet.miss, RegistryRes.found ("id7"), true, true, [], [], 0, ("e1")⟩).2 ∧
    (fetchMain ⟨("GET"), ("/w/tok"), [], [], none⟩
        ⟨CacheGet.miss, RegistryRes.found ("id7"), true, true, [], [], 0, ("e1")⟩).2.take 3
      = [Effect.cacheGet (("webhook:uuid:") ++ ("tok")),
         Effect.registryQuery ("tok"),
         Effect.cachePut (("webhook:uuid:") ++ ("tok")) ("id7") 3600] := by
  decide

/-- C3 (amended): for every token the cache key used for both the `get` and
the repopulating `put` is the textual prefix `webhook:uuid:` followed by the
token; the stored value is the raw internal id returned by the registry and
the entry is written with a 3600-second TTL. -/
theorem C3_cacheKey_value_ttl (req : Request) (env : Env) (tok rid : String)
    (hm : req.method ≠ ("OPTIONS")) (hp : stripW req.path = some tok)
    (ht : tok ≠ ("")) (hc : env.cacheGet = CacheGet.miss)
    (hr : env.registry = RegistryRes.found rid) :
    (fetchMain req env).2.take 3
      = [Effect.cacheGet (("webhook:uuid:") ++ tok), Effect.registryQuery tok,
         Effect.cachePut (("webhook:uuid:") ++ tok) rid 3600] := by
  simp only [fetchMain, if_neg hm, hp, if_neg ht, hc, hr]
  split <;> simp

/-- C3 witness: the amended theorem evaluated on a concrete miss-then-found
run. -/
theorem C3_cacheKey_value_ttl_witness :
    (fetchMain ⟨("GET"), ("/w/tok"), [], [], none⟩
        ⟨CacheGet.miss, RegistryRes.found ("id7"), true, true, [], [], 0, ("e1")⟩).2.take 3
      = [Effect.cacheGet (("webhook:uuid:") ++ ("tok")),
         Effect.registryQuery ("tok"),
         Effect.cachePut (("webhook:uuid:") ++ ("tok")) ("id7") 3600] :=
  C3_cacheKey_value_ttl _ _ ("tok") ("id7") (by decide) (by decide) (by decide) rfl rfl

/-- C4 counterexample: headers are collected into an unordered `HashMap`, so
a run whose map iteration order is the reverse of the inbound collection is
admissible, and it persists a blob that does not preserve the inbound
order. -/
theorem C4_headersOrder_counterexample :
    ([((("b"):String), (("2"):String)), (("a"), ("1"))]).Perm
      (mapEntries [((("a"):String), (("1"):String)), (("b"), ("2"))]) ∧
    (insertedRows (fetchMain
        ⟨("POST"), ("/w/tok"), [], [(("a"), ("1")), (("b"), ("2"))], some ("x")⟩
        ⟨CacheGet.hit ("id7"), RegistryRes.notFound, true, true,
         [(("b"), ("2")), (("a"), ("1"))], [], 0, ("e1")⟩).2).map (fun r => r.headers)
      = [("\x7b\"b\":\"2\",\"a\":\"1\"\x7d")] ∧
    ("\x7b\"b\":\"2\",\"a\":\"1\"\x7d")
      ≠ jsonObj [((("a"):String), (("1"):String)), (("b"), ("2"))] := by
  decide

/-- C4 (amended): the persisted headers field is the JSON text of the
name-to-value hash map built from the inbound header collection (a later
duplicate name overwrites an earlier one); its entry order is the hash map's
iteration order — an arbitrary permutation of the deduplicated entries — and
need not preserve the order of the inbound collection. -/
theorem C4_headers_blob_map_iteration (req : Request) (env : Env) (tok wid : String)
    (hm : req.method ≠ ("OPTIONS")) (hp : stripW req.path = some tok)
    (ht : tok ≠ ("")) (hc : env.cacheGet = CacheGet.hit wid)
    (hperm : env.headerEntries.Perm (mapEntries req.headersList)) :
    ((insertedRows (fetchMain req env).2).map (fun r => r.headers)
        = [jsonObj env.headerEntries]) ∧
    env.headerEntries.Perm (mapEntries req.headersList) := by
  refine ⟨?_, hperm⟩
  simp only [fetchMain, if_neg hm, hp, if_neg ht, hc]
  split <;> simp [insertedRows]

/-- C4 witness: the amended theorem evaluated on a concrete run whose map
iteration order reverses the inbound header order. -/
theorem C4_headers_blob_map_iteration_witness :
    ((insertedRows (fetchMain
        ⟨("POST"), ("/w/tok"), [], [(("a"), ("1")), (("b"), ("2"))], some ("x")⟩
        ⟨CacheGet.hit ("id7"), RegistryRes.notFound, true, true,
         [(("b"), ("2")), (("a"), ("1"))], [], 0, ("e1")⟩).2).map (fun r => r.headers)
        = [jsonObj [(("b"), ("2")), (("a"), ("1"))]]) ∧
    ([((("b"):String), (("2"):String)), (("a"), ("1"))]).Perm
      (mapEntries [((("a"):String), (("1"):String)), (("b"), ("2"))]) :=
  C4_headers_blob_map_iteration _ _ ("tok") ("id7")
    (by decide) (by decide) (by decide) rfl (by decide)

/-- C5: a non-empty token that misses the cache and matches no registry row
yields the 404-equivalent response with body `Webhook not found`, the trace
is exactly the cache read and the registry query, and no event-store insert
is attempted. -/
theorem C5_webhookNotFound_no_store_write (req : Request) (env : Env) (tok : String)
    (hm : req.method ≠ ("OPTIONS")) (hp : stripW req.path = some tok)
    (ht : tok ≠ ("")) (hc : env.cacheGet = CacheGet.miss)
    (hr : env.registry = RegistryRes.notFound) :
    fetchMain req env
      = (FetchResult.ok (errorResp ("Webhook not found") 404),
         [Effect.cacheGet (("webhook:uuid:") ++ tok), Effect.registryQuery tok]) ∧
    insertedRows (fetchMain req env).2 = [] := by
  have h : fetchMain req env
      = (FetchResult.ok (errorResp ("Webhook not found") 404),
         [Effect.cacheGet (("webhook:uuid:") ++ tok), Effect.registryQuery tok]) := by
    simp only [fetchMain, if_neg hm, hp, if_neg ht, hc, hr]
  exact ⟨h, by rw [h]; rfl⟩

/-- C5 witness: the theorem evaluated on a concrete unknown token. -/
theorem C5_webhookNotFound_no_store_write_witness :
    fetchMain ⟨("GET"), ("/w/t1"), [], [], none⟩
        ⟨CacheGet.miss, RegistryRes.notFound, true, true, [], [], 0, ("e1")⟩
      = (FetchResult.ok (errorResp ("Webhook not found") 404),
         [Effect.cacheGet (("webhook:uuid:") ++ ("t1")), Effect.registryQuery ("t1")]) ∧
    insertedRows (fetchMain ⟨("GET"), ("/w/t1"), [], [], none⟩
        ⟨CacheGet.miss, RegistryRes.notFound, true, true, [], [], 0, ("e1")⟩).2 = [] :=
  C5_webhookNotFound_no_store_write _ _ ("t1")
    (by decide) (by decide) (by decide) rfl rfl

/-- C6: on a cache miss with a registry hit, the returned internal id is
written back under the `webhook:uuid:` key with the 3600-second TTL before
the store insert, the inserted row carries that id, the handler's outcome is
identical whether the cache `put` succeeds or fails (its result is only
logged), and the request succeeds with a 200. -/
theorem C6_repopulation_and_nonfatal_put (req : Request) (env : Env) (tok rid : String)
    (hm : req.method ≠ ("OPTIONS")) (hp : stripW req.path = some tok)
    (ht : tok ≠ ("")) (hc : env.cacheGet = CacheGet.miss)
    (hr : env.registry = RegistryRes.found rid)
    (hs : env.storeInsertOk = true) :
    (fetchMain req env).2
      = [Effect.cacheGet (("webhook:uuid:") ++ tok), Effect.registryQuery tok,
         Effect.cachePut (("webhook:uuid:") ++ tok) rid 3600,
         Effect.storeInsert
           ⟨env.freshId, rid, req.method, jsonObj env.headerEntries,
            dataJsonOf req.method req.bodyText env.queryEntries,
            (dataJsonOf req.method req.bodyText env.queryEntries).utf8ByteSize,
            env.nowMillis / 1000⟩] ∧
    fetchMain req (setCachePut env false) = fetchMain req env ∧
    fetchMain req (setCachePut env true) = fetchMain req env ∧
    resultStatus (fetchMain req env).1 = some 200 := by
  have hput : ∀ b, fetchMain req (setCachePut env b) = fetchMain req env := by
    intro b
    simp only [fetchMain, setCachePut]
  refine ⟨?_, hput false, hput true, ?_⟩
  · simp only [fetchMain, if_neg hm, hp, if_neg ht, hc, hr, hs]
    simp
  · simp only [fetchMain, if_neg hm, hp, if_neg ht, hc, hr, hs]
    simp [resultStatus]

/-- C6 witness: the theorem evaluated on a concrete miss-then-found run. -/
theorem C6_repopulation_and_nonfatal_put_witness :
    (fetchMain ⟨("POST"), ("/w/tok"), [], [], some ("x")⟩
        ⟨CacheGet.miss, RegistryRes.found ("id7"), true, true, [], [], 0, ("e1")⟩).2
      = [Effect.cacheGet (("webhook:uuid:") ++ ("tok")), Effect.registryQuery ("tok"),
         Effect.cachePut (("webhook:uuid:") ++ ("tok")) ("id7") 3600,
         Effect.storeInsert
           ⟨("e1"), ("id7"), ("POST"), jsonObj [],
            dataJsonOf ("POST") (some ("x")) [],
            (dataJsonOf ("POST") (some ("x")) []).utf8ByteSize, 0⟩] ∧
    fetchMain ⟨("POST"), ("/w/tok"), [], [], some ("x")⟩
        (setCachePut ⟨CacheGet.miss, RegistryRes.found ("id7"), true, true,
          [], [], 0, ("e1")⟩ false)
      = fetchMain ⟨("POST"), ("/w/tok"), [], [], some ("x")⟩
        ⟨CacheGet.miss, RegistryRes.found ("id7"), true, true, [], [], 0, ("e1")⟩ ∧
    fetchMain ⟨("POST"), ("/w/tok"), [], [], some ("x")⟩
        (setCachePut ⟨CacheGet.miss, RegistryRes.found ("id7"), true, true,
          [], [], 0, ("e1")⟩ true)
      = fetchMain ⟨("POST"), ("/w/tok"), [], [], some ("x")⟩
        ⟨CacheGet.miss, RegistryRes.found ("id7"), true, true, [], [], 0, ("e1")⟩ ∧
    resultStatus (fetchMain ⟨("POST"), ("/w/tok"), [], [], some ("x")⟩
        ⟨CacheGet.miss, RegistryRes.found ("id7"), true, true, [], [], 0, ("e1")⟩).1
      = some 200 :=
  C6_repopulation_and_nonfatal_put _ _ ("tok") ("id7")
    (by decide) (by decide) (by decide) rfl rfl rfl

/-- C7: a `/w/`-matching path whose token suffix is empty yields the
400-equivalent response with body `Invalid webhook URL` and an empty trace —
no cache, registry or store call is made. -/
theorem C7_emptyToken_invalid_request_no_calls (req : Request) (env : Env)
    (hm : req.method ≠ ("OPTIONS")) (hp : stripW req.path = some ("")) :
    fetchMain req env = (FetchResult.ok (errorResp ("Invalid webhook URL") 400), []) := by
  simp only [fetchMain, if_neg hm, hp]
  simp

/-- C7 witness: the theorem evaluated on the concrete path `/w/`. -/
theorem C7_emptyToken_invalid_request_no_calls_witness :
    fetchMain ⟨("POST"), ("/w/"), [], [], some ("x")⟩
        ⟨CacheGet.hit ("id7"), RegistryRes.notFound, true, true, [], [], 0, ("e1")⟩
      = (FetchResult.ok (errorResp ("Invalid webhook URL") 400), []) :=
  C7_emptyToken_invalid_request_no_calls _ _ (by decide) (by decide)

/-- C8: for POST, PUT or PATCH with an unreadable body, the persisted
payload is the empty-object text, and with the token resolving and the store
insert succeeding the request succeeds with the 200 success response whose
size field is the byte length of that text. -/
theorem C8_unreadableBody_empty_object_success (req : Request) (env : Env)
    (tok wid : String)
    (hm3 : req.method = ("POST") ∨ req.method = ("PUT") ∨ req.method = ("PATCH"))
    (hb : req.bodyText = none)
    (hp : stripW req.path = some tok) (ht : tok ≠ (""))
    (hc : env.cacheGet = CacheGet.hit wid) (hs : env.storeInsertOk = true) :
    ((insertedRows (fetchMain req env).2).map (fun r => r.data) = [("\x7b\x7d")]) ∧
    (fetchMain req env).1
      = FetchResult.ok ⟨200,
          RespBody.json ⟨true, ("Webhook received"), tok, env.freshId, req.method,
            env.nowMillis / 1000, (("\x7b\x7d") : String).utf8ByteSize⟩,
          true⟩ := by
  have hm : req.method ≠ ("OPTIONS") := by rcases hm3 with h | h | h <;> simp [h]
  simp only [fetchMain, if_neg hm, hp, if_neg ht, hc, hs, dataJsonOf, if_pos hm3, hb]
  simp [insertedRows]

/-- C8 witness: the theorem evaluated on a concrete POST whose body read
failed. -/
theorem C8_unreadableBody_empty_object_success_witness :
    ((insertedRows (fetchMain ⟨("POST"), ("/w/tok"), [], [], none⟩
        ⟨CacheGet.hit ("id7"), RegistryRes.notFound, true, true, [], [], 0, ("e1")⟩).2).map
          (fun r => r.data) = [("\x7b\x7d")]) ∧
    (fetchMain ⟨("POST"), ("/w/tok"), [], [], none⟩
        ⟨CacheGet.hit ("id7"), RegistryRes.notFound, true, true, [], [], 0, ("e1")⟩).1
      = FetchResult.ok ⟨200,
          RespBody.json ⟨true, ("Webhook received"), ("tok"), ("e1"), ("POST"),
            0, (("\x7b\x7d") : String).utf8ByteSize⟩,
          true⟩ :=
  C8_unreadableBody_empty_object_success _ _ ("tok") ("id7")
    (Or.inl rfl) rfl (by decide) (by decide) rfl rfl

/-- C9 counterexample: with query pairs `a=1` and `b=2`, the iteration order
that lists `b` first is an admissible hash-map order, and the persisted
payload then differs from the serialization claimed; the exact payload text
is therefore not guaranteed. -/
theorem C9_queryPayload_counterexample :
    ([((("b"):String), (("2"):String)), (("a"), ("1"))]).Perm
      (mapEntries [((("a"):String), (("1"):String)), (("b"), ("2"))]) ∧
    (insertedRows (fetchMain
        ⟨("GET"), ("/w/tok"), [(("a"), ("1")), (("b"), ("2"))], [], none⟩
        ⟨CacheGet.hit ("id7"), RegistryRes.notFound, true, true, [],
         [(("b"), ("2")), (("a"), ("1"))], 0, ("e1")⟩).2).map (fun r => r.data)
      = [("\x7b\"b\":\"2\",\"a\":\"1\"\x7d")] ∧
    ("\x7b\"b\":\"2\",\"a\":\"1\"\x7d") ≠ ("\x7b\"a\":\"1\",\"b\":\"2\"\x7d") := by
  decide

/-- C9 (amended): for a GET with query string `a=1&b=2` against a resolvable
token, the persisted payload is the JSON serialization of the two-entry
mapping in one of its two iteration orders, and in either case `size_bytes`
is 17, the byte length of the claimed serialization. -/
theorem C9_queryPayload_hashmap_order (req : Request) (env : Env) (tok wid : String)
    (hm : req.method = ("GET"))
    (hq0 : req.queryPairs = [(("a"), ("1")), (("b"), ("2"))])
    (hp : stripW req.path = some tok) (ht : tok ≠ (""))
    (hqe : env.queryEntries.Perm (mapEntries req.queryPairs))
    (hc : env.cacheGet = CacheGet.hit wid) (hs : env.storeInsertOk = true) :
    ((("\x7b\"a\":\"1\",\"b\":\"2\"\x7d") : String).utf8ByteSize = 17 ∧
     (("\x7b\"b\":\"2\",\"a\":\"1\"\x7d") : String).utf8ByteSize = 17) ∧
    (((insertedRows (fetchMain req env).2).map (fun r => (r.data, r.size_bytes))
        = [((("\x7b\"a\":\"1\",\"b\":\"2\"\x7d") : String), 17)]) ∨
     ((insertedRows (fetchMain req env).2).map (fun r => (r.data, r.size_bytes))
        = [((("\x7b\"b\":\"2\",\"a\":\"1\"\x7d") : String), 17)])) := by
  refine ⟨by constructor <;> decide, ?_⟩
  rw [hq0] at hqe
  rw [show mapEntries [(("a"), ("1")), (("b"), ("2"))]
        = [((("a"):String), (("1"):String)), (("b"), ("2"))] from by decide] at hqe
  have hm2 : ¬(req.method = ("POST") ∨ req.method = ("PUT") ∨ req.method = ("PATCH")) := by
    simp [hm]
  have hm1 : req.method ≠ ("OPTIONS") := by simp [hm]
  rcases pairPermCases hqe with h2 | h2
  · left
    simp only [fetchMain, if_neg hm1, hp, if_neg ht, hc, hs, dataJsonOf, if_neg hm2, h2]
    simp [insertedRows]
    decide
  · right
    simp only [fetchMain, if_neg hm1, hp, if_neg ht, hc, hs, dataJsonOf, if_neg hm2, h2]
    simp [insertedRows]
    decide

/-- C9 witness: the amended theorem evaluated on a concrete GET whose map
iterates in URL order. -/
theorem C9_queryPayload_hashmap_order_witness :
    ((("\x7b\"a\":\"1\",\"b\":\"2\"\x7d") : String).utf8ByteSize = 17 ∧
     (("\x7b\"b\":\"2\",\"a\":\"1\"\x7d") : String).utf8ByteSize = 17) ∧
    (((insertedRows (fetchMain
        ⟨("GET"), ("/w/tok"), [(("a"), ("1")), (("b"), ("2"))], [], none⟩
        ⟨CacheGet.hit ("id7"), RegistryRes.notFound, true, true, [],
         [(("a"), ("1")), (("b"), ("2"))], 0, ("e1")⟩).2).map
           (fun r => (r.data, r.size_bytes))
        = [((("\x7b\"a\":\"1\",\"b\":\"2\"\x7d") : String), 17)]) ∨
     ((insertedRows (fetchMain
        ⟨("GET"), ("/w/tok"), [(("a"), ("1")), (("b"), ("2"))], [], none⟩
        ⟨CacheGet.hit ("id7"), RegistryRes.notFound, true, true, [],
         [(("a"), ("1")), (("b"), ("2"))], 0, ("e1")⟩).2).map
           (fun r => (r.data, r.size_bytes))
        = [((("\x7b\"b\":\"2\",\"a\":\"1\"\x7d") : String), 17)])) :=
  C9_queryPayload_hashmap_order _ _ ("tok") ("id7")
    rfl rfl (by decide) (by decide) (by decide) rfl rfl

/-- C10: the token is the entire path suffix after `/w/`, slashes included:
any path `/w/` + rest with non-empty rest is not rejected as an unknown
route, and the first external call is the cache read for the key
`webhook:uuid:` + rest, the suffix used as-is. -/
theorem C10_token_full_suffix (req : Request) (env : Env) (rest : String)
    (hm : req.method ≠ ("OPTIONS")) (hp : req.path = ("/w/") ++ rest)
    (hr : rest ≠ ("")) :
    stripW req.path = some rest ∧
    (fetchMain req env).2.head? = some (Effect.cacheGet (("webhook:uuid:") ++ rest)) ∧
    (fetchMain req env).1 ≠ FetchResult.ok (errorResp ("Not Found") 404) := by
  have hsw : stripW req.path = some rest := by rw [hp]; rfl
  obtain ⟨cg, reg, cput, sok, he, qe, now, fid⟩ := env
  refine ⟨hsw, ?_, ?_⟩ <;>
  · simp only [fetchMain, if_neg hm, hsw, if_neg hr]
    cases cg <;> cases reg <;> cases sok <;> simp [errorResp]

/-- C10 witness: the theorem evaluated on the concrete path `/w/a/b`, whose
token is `a/b`. -/
theorem C10_token_full_suffix_witness :
    stripW (Request.path ⟨("GET"), ("/w/") ++ ("a/b"), [], [], none⟩) = some ("a/b") ∧
    (fetchMain ⟨("GET"), ("/w/") ++ ("a/b"), [], [], none⟩
        ⟨CacheGet.miss, RegistryRes.notFound, true, true, [], [], 0, ("e1")⟩).2.head?
      = some (Effect.cacheGet (("webhook:uuid:") ++ ("a/b"))) ∧
    (fetchMain ⟨("GET"), ("/w/") ++ ("a/b"), [], [], none⟩
        ⟨CacheGet.miss, RegistryRes.notFound, true, true, [], [], 0, ("e1")⟩).1
      ≠ FetchResult.ok (errorResp ("Not Found") 404) :=
  C10_token_full_suffix _ _ ("a/b") (by decide) rfl (by decide)

end WebhookWorker
